import Mathlib

/-! Verification of the streaming completion bridge in
`ai-service/ai_service/app.py` (`assistant_query`, `AssistantServicer`,
`ChainStreamHandler`) together with its helpers in
`ai-service/ai_service/model.py` (`context`, `add_try_extract`).

The embedding models one call of `assistant_query`:
the producer thread runs `assistant.chat_llm(messages)`, whose callback
(`ChainStreamHandler.on_llm_new_token`) pushes each token of the opaque
language-model completion into the servicer queue; the consumer loop pulls
tokens, yields a `chat` fragment per token, accumulates `full_payload`, and
stops when a poll observes `not chat_thread.is_alive() and queue.empty()`.
The poll results are abstracted as a schedule `alive : Nat → Bool` giving
the value of `chat_thread.is_alive()` at the i-th iteration of the loop.
After the loop breaks, `json.loads` plus the three indexings
`data["command"]`, `data["nodes"]`, `data["labels"]` either yield the
terminal `command` fragment, are silently skipped on `json.JSONDecodeError`,
or raise an uncaught `KeyError`/`TypeError`. -/

set_option autoImplicit false

/-- JSON values as returned by Python `json.loads`.  Numeric literals are
kept as their raw source text: the service only ever moves parsed values
into string / repeated-string protobuf fields, so the int/float value of a
number is never observable (a number in those positions is a `TypeError`). -/
inductive JValue where
  | null
  | bool (b : Bool)
  | num (raw : String)
  | str (s : String)
  | arr (elems : List JValue)
  | obj (members : List (String × JValue))

/-- The double-quote character. -/
def quoteChar : Char := Char.ofNat 34

/-- The backslash character. -/
def backslashChar : Char := Char.ofNat 92

/-- The opening-brace character. -/
def lbraceChar : Char := Char.ofNat 123

/-- The closing-brace character. -/
def rbraceChar : Char := Char.ofNat 125

/-- The newline character. -/
def newlineChar : Char := Char.ofNat 10

/-- The tab character. -/
def tabChar : Char := Char.ofNat 9

/-- The carriage-return character. -/
def crChar : Char := Char.ofNat 13

/-- Skip JSON whitespace (space, tab, newline, carriage return). -/
def skipWs : List Char → List Char
  | [] => []
  | c :: cs =>
    if c = ' ' ∨ c = tabChar ∨ c = newlineChar ∨ c = crChar then skipWs cs
    else c :: cs

/-- Value of a hexadecimal digit. -/
def hexDigitVal (c : Char) : Option Nat :=
  if c.isDigit then some (c.toNat - 48)
  else if 'a' ≤ c ∧ c ≤ 'f' then some (c.toNat - 87)
  else if 'A' ≤ c ∧ c ≤ 'F' then some (c.toNat - 55)
  else none

/-- Body of a JSON string literal, positioned after the opening quote.
Returns the decoded characters and the input after the closing quote.
Mirrors Python json strict mode: raw control characters are rejected. -/
def parseStringChars : Nat → List Char → Option (List Char × List Char)
  | 0, _ => none
  | _, [] => none
  | fuel + 1, c :: rest =>
    if c = quoteChar then some ([], rest)
    else if c = backslashChar then
      match rest with
      | [] => none
      | e :: rest2 =>
        let esc : Option (Char × List Char) :=
          if e = quoteChar then some (quoteChar, rest2)
          else if e = backslashChar then some (backslashChar, rest2)
          else if e = '/' then some ('/', rest2)
          else if e = 'b' then some (Char.ofNat 8, rest2)
          else if e = 'f' then some (Char.ofNat 12, rest2)
          else if e = 'n' then some (newlineChar, rest2)
          else if e = 'r' then some (crChar, rest2)
          else if e = 't' then some (tabChar, rest2)
          else if e = 'u' then
            match rest2 with
            | h1 :: h2 :: h3 :: h4 :: rest3 =>
              match hexDigitVal h1, hexDigitVal h2, hexDigitVal h3, hexDigitVal h4 with
              | some a, some b, some c2, some d =>
                some (Char.ofNat (((a * 16 + b) * 16 + c2) * 16 + d), rest3)
              | _, _, _, _ => none
            | _ => none
          else none
        match esc with
        | none => none
        | some (ec, rest3) =>
          match parseStringChars fuel rest3 with
          | none => none
          | some (s, rest4) => some (ec :: s, rest4)
    else if c.toNat < 32 then none
    else
      match parseStringChars fuel rest with
      | none => none
      | some (s, rest2) => some (c :: s, rest2)

/-- One or more decimal digits. -/
def parseDigits1 (cs : List Char) : Option (List Char × List Char) :=
  let p := cs.span Char.isDigit
  if p.1 = [] then none else some p

/-- Integer part of a JSON number: `0`, or a nonzero digit followed by digits. -/
def parseIntPart : List Char → Option (List Char × List Char)
  | [] => none
  | c :: rest =>
    if c = '0' then some ([c], rest)
    else if c.isDigit then
      let p := rest.span Char.isDigit
      some (c :: p.1, p.2)
    else none

/-- Optional fractional part of a JSON number. -/
def parseFrac : List Char → Option (List Char × List Char)
  | '.' :: rest =>
    match parseDigits1 rest with
    | some (ds, cs2) => some ('.' :: ds, cs2)
    | none => none
  | cs => some ([], cs)

/-- Optional exponent part of a JSON number. -/
def parseExpPart : List Char → Option (List Char × List Char)
  | [] => some ([], [])
  | c :: rest =>
    if c = 'e' ∨ c = 'E' then
      let p : List Char × List Char :=
        match rest with
        | s :: r2 => if s = '+' ∨ s = '-' then ([s], r2) else ([], s :: r2)
        | [] => ([], [])
      match parseDigits1 p.2 with
      | some (ds, cs3) => some (c :: (p.1 ++ ds), cs3)
      | none => none
    else some ([], c :: rest)

/-- A JSON numeric literal, returned as its raw text. -/
def parseNumber (cs : List Char) : Option (String × List Char) :=
  let sp : List Char × List Char :=
    match cs with
    | c :: rest => if c = '-' then ([c], rest) else ([], cs)
    | [] => ([], [])
  match parseIntPart sp.2 with
  | none => none
  | some (ip, cs2) =>
    match parseFrac cs2 with
    | none => none
    | some (fp, cs3) =>
      match parseExpPart cs3 with
      | none => none
      | some (ep, cs4) => some (String.mk (sp.1 ++ ip ++ fp ++ ep), cs4)

mutual

/-- A JSON value, after optional leading whitespace.  Fuel-indexed
recursive-descent grammar of Python `json.loads`, including the
`NaN`/`Infinity`/`-Infinity` constants Python accepts by default; they
parse to floats, kept here as `num` literals (like any other number they
are non-subscriptable, so extraction raises `TypeError` on them). -/
def parseValue : Nat → List Char → Option (JValue × List Char)
  | 0, _ => none
  | fuel + 1, cs =>
    match skipWs cs with
    | [] => none
    | c :: rest =>
      if c = quoteChar then
        match parseStringChars (rest.length + 1) rest with
        | some (s, rest2) => some (.str (String.mk s), rest2)
        | none => none
      else if c = lbraceChar then
        match skipWs rest with
        | [] => none
        | c2 :: rest2 =>
          if c2 = rbraceChar then some (.obj [], rest2)
          else
            match parseMembers fuel (c2 :: rest2) with
            | some (kvs, rest3) => some (.obj kvs, rest3)
            | none => none
      else if c = '[' then
        match skipWs rest with
        | [] => none
        | c2 :: rest2 =>
          if c2 = ']' then some (.arr [], rest2)
          else
            match parseElems fuel (c2 :: rest2) with
            | some (vs, rest3) => some (.arr vs, rest3)
            | none => none
      else if c = 't' then
        match rest with
        | 'r' :: 'u' :: 'e' :: rest2 => some (.bool true, rest2)
        | _ => none
      else if c = 'f' then
        match rest with
        | 'a' :: 'l' :: 's' :: 'e' :: rest2 => some (.bool false, rest2)
        | _ => none
      else if c = 'n' then
        match rest with
        | 'u' :: 'l' :: 'l' :: rest2 => some (.null, rest2)
        | _ => none
      else if c = 'N' then
        match rest with
        | 'a' :: 'N' :: rest2 => some (.num "NaN", rest2)
        | _ => none
      else if c = 'I' then
        match rest with
        | 'n' :: 'f' :: 'i' :: 'n' :: 'i' :: 't' :: 'y' :: rest2 =>
          some (.num "Infinity", rest2)
        | _ => none
      else if c = '-' then
        match rest with
        | 'I' :: 'n' :: 'f' :: 'i' :: 'n' :: 'i' :: 't' :: 'y' :: rest2 =>
          some (.num "-Infinity", rest2)
        | _ =>
          match parseNumber (c :: rest) with
          | some (raw, rest2) => some (.num raw, rest2)
          | none => none
      else if c.isDigit then
        match parseNumber (c :: rest) with
        | some (raw, rest2) => some (.num raw, rest2)
        | none => none
      else none

/-- Comma-separated array elements, positioned at the first element;
consumes the closing bracket. -/
def parseElems : Nat → List Char → Option (List JValue × List Char)
  | 0, _ => none
  | fuel + 1, cs =>
    match parseValue fuel cs with
    | none => none
    | some (v, rest) =>
      match skipWs rest with
      | [] => none
      | c :: rest2 =>
        if c = ',' then
          match parseElems fuel rest2 with
          | none => none
          | some (vs, rest3) => some (v :: vs, rest3)
        else if c = ']' then some ([v], rest2)
        else none

/-- Comma-separated object members, positioned at the first key;
consumes the closing brace. -/
def parseMembers : Nat → List Char → Option (List (String × JValue) × List Char)
  | 0, _ => none
  | fuel + 1, cs =>
    match skipWs cs with
    | [] => none
    | c :: rest =>
      if c = quoteChar then
        match parseStringChars (rest.length + 1) rest with
        | none => none
        | some (k, rest2) =>
          match skipWs rest2 with
          | [] => none
          | c2 :: rest3 =>
            if c2 = ':' then
              match parseValue fuel rest3 with
              | none => none
              | some (v, rest4) =>
                match skipWs rest4 with
                | [] => none
                | c3 :: rest5 =>
                  if c3 = ',' then
                    match parseMembers fuel rest5 with
                    | none => none
                    | some (kvs, rest6) => some ((String.mk k, v) :: kvs, rest6)
                  else if c3 = rbraceChar then some ([(String.mk k, v)], rest5)
                  else none
            else none
      else none

end

/-- Models `json.loads(full_payload)` (app.py line 97): parse one JSON value
and require only trailing whitespace after it; `none` is
`json.JSONDecodeError`. -/
def jsonLoads (s : String) : Option JValue :=
  match parseValue (2 * s.length + 4) s.toList with
  | some (v, rest) => if skipWs rest = [] then some v else none
  | none => none

/-- `d[k]` on the dict built by `json.loads` for an object: with duplicate
keys the last occurrence wins, as in a Python dict built by insertion. -/
def pyDictLookup (kvs : List (String × JValue)) (k : String) : Option JValue :=
  (kvs.reverse.find? (fun kv => kv.1 = k)).map (fun kv => kv.2)

/-- Python exceptions that can escape `assistant_query`: only
`json.JSONDecodeError` is caught there (app.py line 104). -/
inductive PyExn where
  | keyError (key : String)
  | typeError (msg : String)
  deriving DecidableEq

/-- A parsed value assigned to the scalar string field `command` of
`CompletionResponse`.  The protobuf constructor accepts a `str`, treats
`None` as leaving the field at its default, and raises `TypeError`
otherwise. -/
def protoString : JValue → Except PyExn String
  | .str s => .ok s
  | .null => .ok ""
  | _ => .error (.typeError "bad type for string field")

/-- An element of a repeated string field must itself be a `str`. -/
def protoStringElem : JValue → Except PyExn String
  | .str s => .ok s
  | _ => .error (.typeError "bad element type for repeated string field")

/-- A parsed value assigned to a repeated string field (`nodes`/`labels`)
of `CompletionResponse`: any iterable of `str` is accepted (a `str` value
iterates into its characters), `None` leaves the field empty, anything
else raises `TypeError`.  The exotic case of a dict value (iterating its
keys) is modelled as `TypeError`. -/
def protoStringList : JValue → Except PyExn (List String)
  | .arr vs => vs.mapM protoStringElem
  | .str s => .ok (s.data.map (fun c => String.mk [c]))
  | .null => .ok []
  | _ => .error (.typeError "bad type for repeated string field")

/-- Result of lines 96-103 of app.py on the accumulated payload. -/
inductive ExtractResult where
  | ok (command : String) (nodes labels : List String)
  | decodeError
  | exn (e : PyExn)
  deriving DecidableEq

/-- The command-extraction step (app.py lines 96-103):
`data = json.loads(full_payload)` followed by the three indexings
`data["command"]`, `data["nodes"]`, `data["labels"]` (argument evaluation
order of the `CompletionResponse(...)` call) and the protobuf field
conversions.  Indexing a non-dict value with a string raises `TypeError`;
a missing key raises `KeyError`. -/
def tryExtractCommand (full_payload : String) : ExtractResult :=
  match jsonLoads full_payload with
  | none => .decodeError
  | some (.obj kvs) =>
    match pyDictLookup kvs "command" with
    | none => .exn (.keyError "command")
    | some cv =>
      match pyDictLookup kvs "nodes" with
      | none => .exn (.keyError "nodes")
      | some nv =>
        match pyDictLookup kvs "labels" with
        | none => .exn (.keyError "labels")
        | some lv =>
          match protoString cv with
          | .error e => .exn e
          | .ok c =>
            match protoStringList nv with
            | .error e => .exn e
            | .ok ns =>
              match protoStringList lv with
              | .error e => .exn e
              | .ok ls => .ok c ns ls
  | some _ => .exn (.typeError "value is not subscriptable by a string key")

/-- One element of `request.messages` (assistant.proto message with a
`role` and a `content` string). -/
structure RawMessage where
  role : String
  content : String
  deriving DecidableEq

/-- The inbound `CompleteRequest`.  `messages` is `Option`-valued to model
the `request.messages is None` test on line 58 of app.py. -/
structure CompleteRequest where
  username : String
  messages : Option (List RawMessage)
  deriving DecidableEq

/-- LangChain schema messages used as model input. -/
inductive SchemaMessage where
  | system (content : String)
  | human (content : String)
  | ai (content : String)
  deriving DecidableEq

/-- `model.context(username)` (model.py lines 6-18). -/
def context (username : String) : List SchemaMessage :=
  [SchemaMessage.system
    ("\nYou are Teleport, a tool that users can use to connect to Linux servers and run relevant commands, as well as have a conversation.\nA Teleport cluster is a connectivity layer that allows access to a set of servers. Servers may also be referred to as nodes.\nNodes sometimes have labels such as \"production\" and \"staging\" assigned to them. Labels are used to group nodes together.\nYou will engage in friendly and professional conversation with the user and help accomplish relevant tasks.\n\nYou are talking to "
      ++ username ++ ".\n    ")]

/-- Content of the message appended by `model.add_try_extract`
(model.py lines 21-45). -/
def TRY_EXTRACT_PROMPT : String :=
  "\n            If the input is a request to complete a task on a server, try to extract the following information:\n            - A Linux shell command\n            - One or more target servers\n            - One or more target labels\n\n            If there is a lack of details, provide most logical solution.\n            Ensure the output is a valid shell command.\n            There must be at least one target server or label, otherwise we do not have enough information to complete the task.\n            Provide the output in the following format with no other text:\n\n            \x7b\n                \"command\": \"<command to run>\",\n                \"servers\": [\"<server1>\", \"<server2>\"],\n                \"labels\": [\"<label1>\", \"<label2>\"]\n            \x7d\n\n            If the user is not asking to complete a task on a server - disgard this entire message and respond\n            with friendly conversational message instead.\n            "

/-- `model.add_try_extract(messages)`: appends the extraction instruction. -/
def add_try_extract (messages : List SchemaMessage) : List SchemaMessage :=
  messages ++ [SchemaMessage.human TRY_EXTRACT_PROMPT]

/-- One iteration of the role-dispatch loop (app.py lines 65-72).  The
Python `match` statement has no default case: a message whose role is none
of `user`/`assistant`/`system` falls through and is silently skipped. -/
def appendMessage (messages : List SchemaMessage) (raw : RawMessage) : List SchemaMessage :=
  if raw.role = "user" then messages ++ [SchemaMessage.human raw.content]
  else if raw.role = "assistant" then messages ++ [SchemaMessage.ai raw.content]
  else if raw.role = "system" then messages ++ [SchemaMessage.system raw.content]
  else messages

/-- The conversation built from the request before the thread is created
(app.py lines 64-72). -/
def buildMessages (username : String) (raws : List RawMessage) : List SchemaMessage :=
  raws.foldl appendMessage (context username)

/-- The opaque external token source (the streamed chat completion).
`tokens` are the text fragments the callback receives, in order, before the
call either returns normally (`err = none`) or raises inside the producer
thread (`err = some e`). -/
structure TokenSource where
  tokens : List String
  err : Option String
  deriving DecidableEq

/-- Tokens the producer thread pushes into the queue
(`ChainStreamHandler.on_llm_new_token`, app.py lines 28-29): every token
observed before the call ends, whether it ends by returning or by raising —
an exception in the thread is not pushed anywhere. -/
def producedTokens (src : TokenSource) : List String := src.tokens

/-- The consumer loop of `assistant_query` (app.py lines 81-92),
parameterized by the poll schedule: `alive i` is the value
`chat_thread.is_alive()` returns at the i-th iteration's break check.
Returns the tokens pulled from the queue in order, and whether the loop
broke (`false` means the next `queue.get()` blocks forever, since the
producer will never push again).

A poll can only observe the thread dead after all its pushes happened, so
`alive i = false` with tokens still unpulled means the queue is nonempty
and the conjunct `queue.empty()` fails; the loop continues either way. -/
def drainLoop (alive : Nat → Bool) : List String → Nat → List String × Bool
  | [], _ => ([], false)
  | t :: rest, i =>
    if alive i = false ∧ rest = [] then ([t], true)
    else
      let r := drainLoop alive rest (i + 1)
      (t :: r.1, r.2)

/-- Tokens pulled from the queue by one request's drain loop. -/
def pulledTokens (src : TokenSource) (alive : Nat → Bool) : List String :=
  (drainLoop alive (producedTokens src) 0).1

/-- Whether the drain loop's break condition
`not chat_thread.is_alive() and assistant.queue.empty()` ever fired. -/
def loopBroke (src : TokenSource) (alive : Nat → Bool) : Bool :=
  (drainLoop alive (producedTokens src) 0).2

/-- The accumulated `full_payload` string (app.py lines 81, 88). -/
def full_payload (src : TokenSource) (alive : Nat → Bool) : String :=
  String.join (pulledTokens src alive)

/-- An element of the outbound response stream: a `CompletionResponse`
with `kind="chat"` or `kind="command"`. -/
inductive Fragment where
  | chat (content : String)
  | command (command : String) (nodes labels : List String)
  deriving DecidableEq

/-- Whether a fragment is a `chat` fragment. -/
def Fragment.isChat : Fragment → Bool
  | .chat _ => true
  | .command _ _ _ => false

/-- How one call of the `assistant_query` generator ends. -/
inductive RunEnd where
  | completed
  | blocked
  | raised (e : PyExn)
  deriving DecidableEq

/-- Observable behaviour of one call of `assistant_query`: the fragments
yielded (in order), whether `chat_thread.start()` was reached, how many
times `json.loads` extraction was attempted, and how the call ended. -/
structure QueryRun where
  frags : List Fragment
  threadStarted : Bool
  extractionAttempts : Nat
  ending : RunEnd
  deriving DecidableEq

/-- app.py line 32. -/
def DEFAULT_HELLO_MESSAGE : String :=
  "Hey, I\x27m Teleport - a powerful tool that can assist you in managing your Teleport cluster via ChatGPT."

/-- The `assistant_query` generator (app.py lines 53-105), run to its end.

When `request.messages is None` the greeting is yielded but, there being no
`return`, execution falls through to `for raw_message in request.messages`,
which raises `TypeError` iterating `None` — before the thread is created.
Otherwise the conversation is built, the producer thread is started, the
queue is drained, and after the loop breaks extraction runs once:
`json.JSONDecodeError` is swallowed (lines 104-105), any other exception
escapes. -/
def assistant_query (request : CompleteRequest) (src : TokenSource)
    (alive : Nat → Bool) : QueryRun :=
  match request.messages with
  | none =>
    ⟨[Fragment.chat DEFAULT_HELLO_MESSAGE], false, 0,
      RunEnd.raised (.typeError "argument of type NoneType is not iterable")⟩
  | some raws =>
    let _messages := add_try_extract (buildMessages request.username raws)
    let chats := (pulledTokens src alive).map Fragment.chat
    if loopBroke src alive then
      match tryExtractCommand (full_payload src alive) with
      | .ok c ns ls => ⟨chats ++ [Fragment.command c ns ls], true, 1, RunEnd.completed⟩
      | .decodeError => ⟨chats, true, 1, RunEnd.completed⟩
      | .exn e => ⟨chats, true, 1, RunEnd.raised e⟩
    else ⟨chats, true, 0, RunEnd.blocked⟩

/-- The servicer (app.py lines 35-45): `__init__` creates a single
`Queue()` and a single `ChatOpenAI` client whose callback pushes into that
queue.  The field holds the identity of that one queue object. -/
structure AssistantServicer where
  queue : Nat
  deriving DecidableEq

/-- The queue object the drain loop of a given request reads
(`assistant.queue.get()`, app.py line 83): it is the servicer's own queue,
independent of the request. -/
def queueUsedBy (assistant : AssistantServicer) (request : CompleteRequest) : Nat :=
  assistant.queue

/-- A parsed top-level JSON value on which the extraction indexings raise:
not an object, or an object missing one of the three required keys. -/
def jsonKeysMissing : JValue → Bool
  | .obj kvs =>
    (pyDictLookup kvs "command").isNone || (pyDictLookup kvs "nodes").isNone
      || (pyDictLookup kvs "labels").isNone
  | _ => true

/-! Helper lemmas about the drain loop and the run shape. -/

theorem drainLoop_fst (alive : Nat → Bool) (ts : List String) (i : Nat) :
    (drainLoop alive ts i).1 = ts := by
  induction ts generalizing i with
  | nil => rfl
  | cons t rest ih =>
    by_cases h : alive i = false ∧ rest = []
    · obtain ⟨h1, h2⟩ := h
      subst h2
      simp [drainLoop, h1]
    · simp [drainLoop, h, ih]

theorem drainLoop_broke_iff (alive : Nat → Bool) (ts : List String) (i : Nat) :
    (drainLoop alive ts i).2 = true ↔ ts ≠ [] ∧ alive (i + ts.length - 1) = false := by
  induction ts generalizing i with
  | nil => simp [drainLoop]
  | cons t rest ih =>
    by_cases h : alive i = false ∧ rest = []
    · obtain ⟨h1, h2⟩ := h
      subst h2
      simp [drainLoop, h1]
    · have hstep : (drainLoop alive (t :: rest) i).2 = (drainLoop alive rest (i + 1)).2 := by
        simp [drainLoop, h]
      rw [hstep, ih (i + 1)]
      cases rest with
      | nil =>
        have h1 : alive i = true := by
          cases hx : alive i
          · exact absurd ⟨hx, rfl⟩ h
          · rfl
        simp [h1]
      | cons r rs =>
        have harith : i + 1 + (r :: rs).length - 1 = i + (t :: r :: rs).length - 1 := by
          simp only [List.length_cons]
          omega
        rw [harith]
        simp

theorem pulledTokens_eq (src : TokenSource) (alive : Nat → Bool) :
    pulledTokens src alive = src.tokens :=
  drainLoop_fst alive src.tokens 0

theorem loopBroke_iff (src : TokenSource) (alive : Nat → Bool) :
    loopBroke src alive = true
      ↔ src.tokens ≠ [] ∧ alive (src.tokens.length - 1) = false := by
  have h := drainLoop_broke_iff alive src.tokens 0
  simpa using h

theorem filter_isChat_map_chat (ts : List String) :
    (ts.map Fragment.chat).filter Fragment.isChat = ts.map Fragment.chat := by
  induction ts with
  | nil => rfl
  | cons t rest ih => simp [Fragment.isChat, ih]

theorem run_chats (username : String) (raws : List RawMessage)
    (src : TokenSource) (alive : Nat → Bool) :
    (assistant_query ⟨username, some raws⟩ src alive).frags.filter Fragment.isChat
      = src.tokens.map Fragment.chat := by
  have hp : pulledTokens src alive = src.tokens := pulledTokens_eq src alive
  by_cases hb : loopBroke src alive = true
  · cases hx : tryExtractCommand (full_payload src alive) with
    | ok c ns ls =>
      simp [assistant_query, hb, hx, hp, filter_isChat_map_chat, Fragment.isChat]
    | decodeError => simp [assistant_query, hb, hx, hp, filter_isChat_map_chat]
    | exn e => simp [assistant_query, hb, hx, hp, filter_isChat_map_chat]
  · have hnb : loopBroke src alive = false := by
      cases h : loopBroke src alive
      · rfl
      · exact absurd h hb
    simp [assistant_query, hnb, hp, filter_isChat_map_chat]

/-! The claims. -/

/-- C1: for every token sequence the source produces (and every poll
schedule), the chat fragments yielded by `assistant_query` are exactly the
tokens, one fragment per token, in the order produced — no reordering,
skipping or coalescing — and the accumulated `full_payload` used for final
extraction is their concatenation in that same order. -/
theorem claim1_token_order_and_transcript (username : String) (raws : List RawMessage)
    (src : TokenSource) (alive : Nat → Bool) :
    ((assistant_query ⟨username, some raws⟩ src alive).frags.filter Fragment.isChat
        = src.tokens.map Fragment.chat)
      ∧ full_payload src alive = String.join src.tokens := by
  refine ⟨run_chats username raws src alive, ?_⟩
  unfold full_payload
  rw [pulledTokens_eq]

/-- C2 counterexample: a transcript that is a well-formed JSON object with
`command` and `nodes` present but `labels` absent — which satisfies the
claim's "command and at least one of nodes/labels" — does not end the
stream with a terminal `Command` fragment: the request dies with an
uncaught `KeyError` on `labels`. -/
theorem claim2_counterexample :
    assistant_query ⟨"alice", some [⟨"user", "run uname on host1"⟩]⟩
        ⟨["\x7b\"command\":\"uname -r\",\"nodes\":[\"host1\"]\x7d"], none⟩ (fun _ => false)
      = ⟨[Fragment.chat "\x7b\"command\":\"uname -r\",\"nodes\":[\"host1\"]\x7d"], true, 1,
          RunEnd.raised (PyExn.keyError "labels")⟩ := by
  rfl

/-- C2 amended: for every request whose drain loop terminates and whose
final transcript is a JSON object containing all three keys `command`
(a string), `nodes` and `labels` (values convertible to repeated string
fields), the stream ends with exactly one terminal `Command` fragment
carrying those parsed values, with no extra `Chat` fragment after it. -/
theorem claim2_amended_terminal_command (username : String) (raws : List RawMessage)
    (src : TokenSource) (alive : Nat → Bool)
    (kvs : List (String × JValue)) (c : String) (nv lv : JValue)
    (ns ls : List String)
    (hterm : loopBroke src alive = true)
    (hjson : jsonLoads (full_payload src alive) = some (JValue.obj kvs))
    (hc : pyDictLookup kvs "command" = some (JValue.str c))
    (hn : pyDictLookup kvs "nodes" = some nv)
    (hl : pyDictLookup kvs "labels" = some lv)
    (hns : protoStringList nv = Except.ok ns)
    (hls : protoStringList lv = Except.ok ls) :
    assistant_query ⟨username, some raws⟩ src alive
      = ⟨src.tokens.map Fragment.chat ++ [Fragment.command c ns ls], true, 1,
          RunEnd.completed⟩ := by
  have hx : tryExtractCommand (full_payload src alive) = .ok c ns ls := by
    unfold tryExtractCommand
    rw [hjson]
    simp [hc, hn, hl, protoString, hns, hls]
  simp [assistant_query, hterm, hx, pulledTokens_eq]

/-- Witness for the amended C2 at the claim's own transcript. -/
theorem claim2_amended_witness :
    assistant_query ⟨"alice", some [⟨"user", "run uname on host1"⟩]⟩
        ⟨["\x7b\"command\":\"uname -r\",\"nodes\":[\"host1\"],\"labels\":[]\x7d"], none⟩
        (fun _ => false)
      = ⟨[Fragment.chat "\x7b\"command\":\"uname -r\",\"nodes\":[\"host1\"],\"labels\":[]\x7d",
          Fragment.command "uname -r" ["host1"] []], true, 1, RunEnd.completed⟩ := by
  exact claim2_amended_terminal_command "alice" [⟨"user", "run uname on host1"⟩]
    ⟨["\x7b\"command\":\"uname -r\",\"nodes\":[\"host1\"],\"labels\":[]\x7d"], none⟩
    (fun _ => false)
    [("command", JValue.str "uname -r"), ("nodes", JValue.arr [JValue.str "host1"]),
      ("labels", JValue.arr [])]
    "uname -r" (JValue.arr [JValue.str "host1"]) (JValue.arr [])
    ["host1"] [] (by rfl) (by rfl) (by rfl) (by rfl) (by rfl) (by rfl) (by rfl)

/-- C3: for every request whose drain loop terminates and whose final
transcript does not parse as JSON, the run ends after the already-streamed
`Chat` fragments with no additional terminal fragment and no error: the
`json.JSONDecodeError` is swallowed. -/
theorem claim3_extraction_miss_silent (username : String) (raws : List RawMessage)
    (src : TokenSource) (alive : Nat → Bool)
    (hterm : loopBroke src alive = true)
    (hjson : jsonLoads (full_payload src alive) = none) :
    assistant_query ⟨username, some raws⟩ src alive
      = ⟨src.tokens.map Fragment.chat, true, 1, RunEnd.completed⟩ := by
  have hx : tryExtractCommand (full_payload src alive) = .decodeError := by
    unfold tryExtractCommand
    rw [hjson]
  simp [assistant_query, hterm, hx, pulledTokens_eq]

/-- Witness for C3 at the claim's own transcript. -/
theorem claim3_witness :
    assistant_query ⟨"carol", some [⟨"user", "hello"⟩]⟩
        ⟨["Sure, I can help with that!"], none⟩ (fun _ => false)
      = ⟨[Fragment.chat "Sure, I can help with that!"], true, 1, RunEnd.completed⟩ :=
  claim3_extraction_miss_silent "carol" [⟨"user", "hello"⟩]
    ⟨["Sure, I can help with that!"], none⟩ (fun _ => false) (by rfl) (by rfl)

/-- C4 (code bug): with `messages = []` the greeting branch is not taken at
all (`[] is None` is false): no greeting fragment is yielded and the model
call IS engaged; with `messages = None` the greeting is yielded but the
missing `return` lets execution fall into `for raw_message in
request.messages`, raising `TypeError` — in neither case is the output
exactly one greeting fragment with the coordinator never engaged. -/
theorem claim4_no_short_circuit :
    (assistant_query ⟨"bob", some []⟩ ⟨["Hi!"], none⟩ (fun _ => false)
        = ⟨[Fragment.chat "Hi!"], true, 1, RunEnd.completed⟩)
      ∧ (assistant_query ⟨"bob", none⟩ ⟨[], none⟩ (fun _ => false)
        = ⟨[Fragment.chat DEFAULT_HELLO_MESSAGE], false, 0,
            RunEnd.raised (PyExn.typeError "argument of type NoneType is not iterable")⟩) :=
  ⟨rfl, rfl⟩

/-- C5 counterexample: a message with the unknown role "banana" is NOT
rejected with a validation error: it is silently dropped from the built
conversation and the request streams normally. -/
theorem claim5_counterexample :
    (buildMessages "u" [⟨"banana", "x"⟩] = buildMessages "u" [])
      ∧ (assistant_query ⟨"u", some [⟨"banana", "x"⟩]⟩ ⟨["ok"], none⟩ (fun _ => false)
        = ⟨[Fragment.chat "ok"], true, 1, RunEnd.completed⟩) :=
  ⟨rfl, rfl⟩

/-- C5 amended: a message whose role is none of `user`/`assistant`/`system`
is silently skipped by the role-dispatch `match` (which has no default
case): the conversation built is the one without that message, no
validation error is raised, and the request proceeds exactly as if the
message were absent. -/
theorem claim5_amended_unknown_role_dropped (username : String)
    (pre post : List RawMessage) (m : RawMessage)
    (src : TokenSource) (alive : Nat → Bool)
    (h1 : m.role ≠ "user") (h2 : m.role ≠ "assistant") (h3 : m.role ≠ "system") :
    (buildMessages username (pre ++ m :: post) = buildMessages username (pre ++ post))
      ∧ (assistant_query ⟨username, some (pre ++ m :: post)⟩ src alive
        = assistant_query ⟨username, some (pre ++ post)⟩ src alive) := by
  constructor
  · have hm : ∀ acc : List SchemaMessage, appendMessage acc m = acc := by
      intro acc
      unfold appendMessage
      rw [if_neg h1, if_neg h2, if_neg h3]
    unfold buildMessages
    rw [List.foldl_append, List.foldl_append, List.foldl_cons, hm]
  · rfl

/-- Witness for the amended C5. -/
theorem claim5_amended_witness :
    (buildMessages "u" ([] ++ (⟨"banana", "x"⟩ : RawMessage) :: [])
        = buildMessages "u" ([] ++ []))
      ∧ (assistant_query ⟨"u", some ([] ++ (⟨"banana", "x"⟩ : RawMessage) :: [])⟩
            ⟨["ok"], none⟩ (fun _ => false)
        = assistant_query ⟨"u", some ([] ++ [])⟩ ⟨["ok"], none⟩ (fun _ => false)) :=
  claim5_amended_unknown_role_dropped "u" [] [] ⟨"banana", "x"⟩ ⟨["ok"], none⟩
    (fun _ => false) (by decide) (by decide) (by decide)

/-- C6 counterexample: a completion that ends immediately with zero tokens
does NOT lead to one extraction attempt over the empty transcript — the
first `queue.get()` blocks forever and extraction is never attempted. -/
theorem claim6_counterexample :
    assistant_query ⟨"u", some [⟨"user", "hi"⟩]⟩ ⟨[], none⟩ (fun _ => false)
      = ⟨[], true, 0, RunEnd.blocked⟩ :=
  rfl

/-- C6 amended: extraction is attempted at most once per request — exactly
once when the drain loop breaks and never otherwise — and the loop breaks
precisely when at least one token was streamed and the final
`is_alive()` poll observed the producer thread dead; in particular a
zero-token completion blocks forever with no extraction attempt. -/
theorem claim6_amended_extraction_count (username : String) (raws : List RawMessage)
    (src : TokenSource) (alive : Nat → Bool) :
    ((assistant_query ⟨username, some raws⟩ src alive).extractionAttempts
        = if loopBroke src alive then 1 else 0)
      ∧ (loopBroke src alive = true
        ↔ src.tokens ≠ [] ∧ alive (src.tokens.length - 1) = false) := by
  constructor
  · by_cases hb : loopBroke src alive = true
    · cases hx : tryExtractCommand (full_payload src alive) with
      | ok c ns ls => simp [assistant_query, hb, hx]
      | decodeError => simp [assistant_query, hb, hx]
      | exn e => simp [assistant_query, hb, hx]
    · have hnb : loopBroke src alive = false := by
        cases h : loopBroke src alive
        · rfl
        · exact absurd h hb
      simp [assistant_query, hnb]
  · exact loopBroke_iff src alive

/-- C7 counterexample: after the source fails with error "E" having emitted
["Hel", "lo"], the request does NOT fail with a ProducerError: both chat
fragments are forwarded and the run completes cleanly — the thread's
exception is invisible to the consumer. -/
theorem claim7_counterexample :
    assistant_query ⟨"u", some [⟨"user", "q"⟩]⟩ ⟨["Hel", "lo"], some "E"⟩ (fun _ => false)
      = ⟨[Fragment.chat "Hel", Fragment.chat "lo"], true, 1, RunEnd.completed⟩ :=
  rfl

/-- C7 amended: when the token source fails after emitting some tokens, the
`Chat` fragments for those tokens are still forwarded in order, but no
transport-level error is surfaced: the run is indistinguishable from one
in which the source ended normally after the same tokens (so extraction
runs over the partial transcript and may even emit a `Command`). -/
theorem claim7_amended_error_swallowed (username : String) (raws : List RawMessage)
    (tokens : List String) (e : String) (alive : Nat → Bool) :
    (assistant_query ⟨username, some raws⟩ ⟨tokens, some e⟩ alive
        = assistant_query ⟨username, some raws⟩ ⟨tokens, none⟩ alive)
      ∧ ((assistant_query ⟨username, some raws⟩ ⟨tokens, some e⟩ alive).frags.filter
            Fragment.isChat
        = tokens.map Fragment.chat) :=
  ⟨rfl, run_chats username raws ⟨tokens, some e⟩ alive⟩

/-- C8 counterexample: two distinct in-flight requests served by the same
servicer read the very same queue object — the token channel is created
once in `AssistantServicer.__init__`, not per request. -/
theorem claim8_counterexample :
    (queueUsedBy ⟨0⟩ ⟨"alice", some []⟩ = queueUsedBy ⟨0⟩ ⟨"bob", some [⟨"user", "hi"⟩]⟩)
      ∧ ((⟨"alice", some []⟩ : CompleteRequest) ≠ ⟨"bob", some [⟨"user", "hi"⟩]⟩) :=
  ⟨rfl, by decide⟩

/-- C8 amended: the token channel is shared: every request served by a
given servicer drains the single queue created in that servicer's
`__init__` (only the `full_payload` accumulator is per-request). -/
theorem claim8_amended_shared_queue (assistant : AssistantServicer)
    (r1 r2 : CompleteRequest) :
    queueUsedBy assistant r1 = queueUsedBy assistant r2 :=
  rfl

/-- C9 counterexample: two runs with identical channel histories (the
single token "tok" pulled) end differently depending only on the polled
`is_alive()` value at the break check — one terminates and extracts, the
other blocks forever — so the end-of-stream decision is driven by the
liveness poll, not by any terminal event in the channel. -/
theorem claim9_counterexample :
    ((assistant_query ⟨"u", some [⟨"user", "q"⟩]⟩ ⟨["tok"], none⟩ (fun _ => false)).ending
        = RunEnd.completed)
      ∧ ((assistant_query ⟨"u", some [⟨"user", "q"⟩]⟩ ⟨["tok"], none⟩ (fun _ => true)).ending
        = RunEnd.blocked) :=
  ⟨rfl, rfl⟩

/-- C9 amended: the channel carries only token strings (no terminal
event); the drain loop ends exactly when the poll
`not chat_thread.is_alive() and queue.empty()` fires, so the run blocks
forever precisely when no token arrived at all or the final poll still saw
the producer thread alive. -/
theorem claim9_amended_poll_decides_end (username : String) (raws : List RawMessage)
    (src : TokenSource) (alive : Nat → Bool) :
    (assistant_query ⟨username, some raws⟩ src alive).ending = RunEnd.blocked
      ↔ (src.tokens = [] ∨ alive (src.tokens.length - 1) = true) := by
  by_cases hb : loopBroke src alive = true
  · obtain ⟨hne, hal⟩ := (loopBroke_iff src alive).mp hb
    have hrhs : ¬(src.tokens = [] ∨ alive (src.tokens.length - 1) = true) := by
      rintro (h | h)
      · exact hne h
      · rw [hal] at h
        exact Bool.false_ne_true h
    cases hx : tryExtractCommand (full_payload src alive) with
    | ok c ns ls => simp [assistant_query, hb, hx, hrhs]
    | decodeError => simp [assistant_query, hb, hx, hrhs]
    | exn e => simp [assistant_query, hb, hx, hrhs]
  · have hnb : loopBroke src alive = false := by
      cases h : loopBroke src alive
      · rfl
      · exact absurd h hb
    have hnc : ¬(src.tokens ≠ [] ∧ alive (src.tokens.length - 1) = false) := by
      intro hcontra
      exact hb ((loopBroke_iff src alive).mpr hcontra)
    have hrhs : src.tokens = [] ∨ alive (src.tokens.length - 1) = true := by
      by_cases he : src.tokens = []
      · exact Or.inl he
      · right
        cases hav : alive (src.tokens.length - 1)
        · exact absurd ⟨he, hav⟩ hnc
        · rfl
    simp [assistant_query, hnb, hrhs]

/-- C10: when the drain loop terminates and the transcript parses as JSON
whose top-level value is not an object or is an object missing one of the
keys `command`/`nodes`/`labels`, `assistant_query` raises an uncaught
exception (a `KeyError` or `TypeError`) after the streamed chat fragments,
instead of silently omitting the terminal fragment: only
`json.JSONDecodeError` is caught. -/
theorem claim10_uncaught_exception (username : String) (raws : List RawMessage)
    (src : TokenSource) (alive : Nat → Bool) (v : JValue)
    (hterm : loopBroke src alive = true)
    (hjson : jsonLoads (full_payload src alive) = some v)
    (hbad : jsonKeysMissing v = true) :
    ∃ e : PyExn, assistant_query ⟨username, some raws⟩ src alive
      = ⟨src.tokens.map Fragment.chat, true, 1, RunEnd.raised e⟩ := by
  obtain ⟨e, he⟩ : ∃ e : PyExn, tryExtractCommand (full_payload src alive) = .exn e := by
    unfold tryExtractCommand
    rw [hjson]
    cases v with
    | obj kvs =>
      cases hc : pyDictLookup kvs "command" with
      | none => exact ⟨.keyError "command", by simp [hc]⟩
      | some cv =>
        cases hn : pyDictLookup kvs "nodes" with
        | none => exact ⟨.keyError "nodes", by simp [hc, hn]⟩
        | some nv =>
          cases hl : pyDictLookup kvs "labels" with
          | none => exact ⟨.keyError "labels", by simp [hc, hn, hl]⟩
          | some lv =>
            exfalso
            simp [jsonKeysMissing, hc, hn, hl] at hbad
    | null => exact ⟨.typeError "value is not subscriptable by a string key", rfl⟩
    | bool b => exact ⟨.typeError "value is not subscriptable by a string key", rfl⟩
    | num raw => exact ⟨.typeError "value is not subscriptable by a string key", rfl⟩
    | str s => exact ⟨.typeError "value is not subscriptable by a string key", rfl⟩
    | arr vs => exact ⟨.typeError "value is not subscriptable by a string key", rfl⟩
  exact ⟨e, by simp [assistant_query, hterm, he, pulledTokens_eq]⟩

/-- Witness for C10: transcript "\x7b\x7d" parses as an empty object and
the request dies with an uncaught exception. -/
theorem claim10_witness :
    ∃ e : PyExn, assistant_query ⟨"dave", some []⟩ ⟨["\x7b\x7d"], none⟩ (fun _ => false)
      = ⟨[Fragment.chat "\x7b\x7d"], true, 1, RunEnd.raised e⟩ :=
  claim10_uncaught_exception "dave" [] ⟨["\x7b\x7d"], none⟩ (fun _ => false)
    (JValue.obj []) (by rfl) (by rfl) (by rfl)
